import Mathlib

/-!
Verification of the AutoOMR evaluation engine.

This file gives a shallow embedding of the core server logic of the
repository (the Hono route handlers and the helper functions
`calculateScores` and `generateAnswerComparison`), and proves or refutes
the frozen claims about it.

Modelling conventions:
* JavaScript objects used as maps keyed by question number are modelled as
  association lists; `lookupAnswer` / `lookupDetected` model property
  access `obj[q]`, with `none` standing for both `undefined` (absent key)
  and `null` (explicit undetected marker) — the code only ever tests such
  values for truthiness and for strict equality against strings, and these
  two operations do not distinguish `null` from `undefined`.
* JavaScript truthiness of a string-or-nullish value is `jsTruthy`:
  `null` / `undefined` and the empty string are falsy.
* The random OMR simulation (`simulateOMRProcessing`) and wall-clock
  metadata (ids, timestamps, processing time) are abstracted: the detected
  answer set is a parameter, and only the fields the claims speak about
  are kept in the stored records.
-/

set_option maxRecDepth 8000
set_option linter.unusedVariables false

namespace AutoOMR

/-- JS truthiness of a string-or-nullish value: `null`/`undefined` and the
empty string are falsy, every other string is truthy. -/
def jsTruthy : Option String → Bool
  | none => false
  | some s => !(s == "")

/-- Property access `correctAnswers[q]` on an answer-key `answers` object
(question number to answer letter); `none` models `undefined`. -/
def lookupAnswer (m : List (Nat × String)) (q : Nat) : Option String :=
  (m.find? (fun p => p.1 == q)).map Prod.snd

/-- Property access `detectedAnswers[q]` on a detected-answer object, whose
entries may be explicit `null` (undetected); `none` models both an absent
key and a `null` value. -/
def lookupDetected (m : List (Nat × Option String)) (q : Nat) : Option String :=
  ((m.find? (fun p => p.1 == q)).map Prod.snd).join

/-- One entry of the hardcoded `subjectRanges` table of `calculateScores`. -/
structure SubjectRange where
  subject : String
  start : Nat
  stop : Nat
deriving DecidableEq, Repr

/-- The hardcoded `subjectRanges` literal in `calculateScores`
(src/unnamed/part_003, lines 217-223); `stop` renders the `end` field. -/
def subjectRanges : List SubjectRange :=
  [⟨"Data Analytics", 1, 20⟩,
   ⟨"Machine Learning", 21, 40⟩,
   ⟨"Python Programming", 41, 60⟩,
   ⟨"Statistics", 61, 80⟩,
   ⟨"SQL & Databases", 81, 100⟩]

/-- The hardcoded initial `subjectScores` object literal of
`calculateScores` (src/unnamed/part_003, lines 209-215), as an ordered
association list mirroring JS object insertion order. -/
def initialSubjectScores : List (String × Nat) :=
  [("Data Analytics", 0),
   ("Machine Learning", 0),
   ("Python Programming", 0),
   ("Statistics", 0),
   ("SQL & Databases", 0)]

/-- The five hardcoded subject names, in insertion order. -/
def subjectNames : List String :=
  ["Data Analytics", "Machine Learning", "Python Programming",
   "Statistics", "SQL & Databases"]

/-- `subjectScores[key]++`: increment the value stored at `key` in the
subject-score object (the key is always present in the code's use). -/
def bump : List (String × Nat) → String → List (String × Nat)
  | [], _ => []
  | (k, v) :: rest, s => if k = s then (k, v + 1) :: rest else (k, v) :: bump rest s

/-- The ascending question list `1..n` (the `for` loops in the source run
`q = 1; q <= n; q++`). -/
def questionList (n : Nat) : List Nat :=
  (List.range n).map (· + 1)

/-- The result object `{ totalScore, subjectScores }` of `calculateScores`. -/
structure ScoreResult where
  totalScore : Nat
  subjectScores : List (String × Nat)
deriving DecidableEq, Repr

/-- One iteration of the `for (let q = 1; q <= 100; q++)` loop body of
`calculateScores` (src/unnamed/part_003, lines 225-238), acting on the
accumulator `(totalScore, subjectScores)`; `d`/`c` are the property-access
views of `detectedAnswers`/`correctAnswers`. -/
def scoreStep (d c : Nat → Option String) (acc : Nat × List (String × Nat)) (q : Nat) :
    Nat × List (String × Nat) :=
  if jsTruthy (d q) && (d q == c q) then
    match subjectRanges.find? (fun range => decide (range.start ≤ q) && decide (q ≤ range.stop)) with
    | some range => (acc.1 + 1, bump acc.2 range.subject)
    | none => (acc.1 + 1, acc.2)
  else
    acc

/-- The loop of `calculateScores` over the two map views. -/
def calcScores (d c : Nat → Option String) : ScoreResult :=
  let final := (questionList 100).foldl (scoreStep d c) (0, initialSubjectScores)
  { totalScore := final.1, subjectScores := final.2 }

/-- `calculateScores(detectedAnswers, correctAnswers)`
(src/unnamed/part_003, lines 207-244): hardcoded loop over questions
1..100, one point per detected-and-matching answer, accumulated into the
total and into the hardcoded subject table. -/
def calculateScores (detectedAnswers : List (Nat × Option String))
    (correctAnswers : List (Nat × String)) : ScoreResult :=
  calcScores (lookupDetected detectedAnswers) (lookupAnswer correctAnswers)

/-- The AnswerKey data relevant to the claims: `totalQuestions`, the
`answers` mapping and the declared `subjects` list (name, start, stop).
The routes store whatever the client sent, unvalidated. -/
structure AnswerKey where
  totalQuestions : Nat
  answers : List (Nat × String)
  subjects : List (String × Nat × Nat)
deriving DecidableEq, Repr

/-- The scoring operation as invoked by the process-omr route:
`calculateScores(detectedAnswers, answerKey.answers)`
(src/unnamed/part_003, line 113). -/
def score (detectedAnswers : List (Nat × Option String)) (answerKey : AnswerKey) : ScoreResult :=
  calculateScores detectedAnswers answerKey.answers

/-- One entry of the array built by `generateAnswerComparison`
(src/unnamed/part_003, lines 263-270); `isCorrect` keeps the truthiness of
the JS value `detected && detected === correct`. -/
structure ComparisonEntry where
  questionNumber : Nat
  subject : String
  detectedAnswer : Option String
  correctAnswer : Option String
  isCorrect : Bool
  status : String
deriving DecidableEq, Repr

/-- The hardcoded threshold chain assigning a subject to a question in
`generateAnswerComparison` (src/unnamed/part_003, lines 256-261); the
initial value `Unknown` is always overwritten. -/
def comparisonSubject (q : Nat) : String :=
  if q ≤ 20 then "Data Analytics"
  else if q ≤ 40 then "Machine Learning"
  else if q ≤ 60 then "Python Programming"
  else if q ≤ 80 then "Statistics"
  else "SQL & Databases"

/-- One iteration of the loop body of `generateAnswerComparison`
(src/unnamed/part_003, lines 250-271). -/
def comparisonEntry (d c : Nat → Option String) (q : Nat) : ComparisonEntry :=
  { questionNumber := q
    subject := comparisonSubject q
    detectedAnswer := d q
    correctAnswer := c q
    isCorrect := jsTruthy (d q) && (d q == c q)
    status := if jsTruthy (d q) then
                (if jsTruthy (d q) && (d q == c q) then "correct" else "incorrect")
              else "undetected" }

/-- `generateAnswerComparison(detectedAnswers, correctAnswers, subjects)`
(src/unnamed/part_003, lines 247-274): one entry pushed per question
`q = 1..100`; the `subjects` parameter is never read. -/
def generateAnswerComparison (detectedAnswers : List (Nat × Option String))
    (correctAnswers : List (Nat × String))
    (subjects : List (String × Nat × Nat)) : List ComparisonEntry :=
  (questionList 100).map
    (comparisonEntry (lookupDetected detectedAnswers) (lookupAnswer correctAnswers))

/-- The comparison operation as invoked by the evaluations/:id/answers
route: `generateAnswerComparison(detectedAnswers, answerKey.answers,
answerKey.subjects)` (src/unnamed/part_003, lines 170-174). -/
def compare (detectedAnswers : List (Nat × Option String)) (answerKey : AnswerKey) :
    List ComparisonEntry :=
  generateAnswerComparison detectedAnswers answerKey.answers answerKey.subjects

/-- The answer-key record stored by the answer-keys POST route (id,
upload date and free-text metadata elided; the payload fields are stored
exactly as received). -/
structure StoredAnswerKey where
  examName : String
  setVersion : String
  totalQuestions : Option Nat
  answers : List (Nat × String)
  subjects : Option (List (String × Nat × Nat))
deriving DecidableEq, Repr

/-- The answer-keys POST handler (src/unnamed/part_003, lines 47-78):
`if (!examName || !setVersion || !answers) return 400` and otherwise the
key data is stored as received; `none` means the handler answered 400
Missing required fields and stored nothing. -/
def uploadAnswerKey (examName setVersion : Option String) (totalQuestions : Option Nat)
    (answers : Option (List (Nat × String)))
    (subjects : Option (List (String × Nat × Nat))) : Option StoredAnswerKey :=
  if !jsTruthy examName || !jsTruthy setVersion || answers.isNone then
    none
  else
    some { examName := (examName.getD "")
           setVersion := (setVersion.getD "")
           totalQuestions := totalQuestions
           answers := answers.getD []
           subjects := subjects }

/-- The evaluation record stored by the process-omr route (id, exam date,
image reference, timestamps and the random processing time elided). -/
structure StoredEvaluation where
  studentName : Option String
  rollNumber : Option String
  detectedAnswers : List (Nat × Option String)
  answerKeyId : Option String
  evaluation : Option ScoreResult
  status : String
deriving DecidableEq, Repr

/-- The process-omr POST handler (src/unnamed/part_003, lines 92-143):
after the required-field check, the answer key is looked up in the store
when `answerKeyId` is truthy, scoring runs only when the lookup succeeds,
and the record is written with `status: 'completed'` unconditionally;
`none` means the handler answered 400 and stored nothing. The detected
answer set (randomly simulated in the source) is a parameter. -/
def processOMR (studentName rollNumber imageData : Option String)
    (answerKeyId : Option String) (kvGet : String → Option AnswerKey)
    (detectedAnswers : List (Nat × Option String)) : Option StoredEvaluation :=
  if !jsTruthy studentName || !jsTruthy rollNumber || !jsTruthy imageData then
    none
  else
    let answerKey : Option AnswerKey :=
      if jsTruthy answerKeyId then answerKeyId.bind kvGet else none
    let evaluation : Option ScoreResult :=
      match answerKey with
      | some key => some (calculateScores detectedAnswers key.answers)
      | none => none
    some { studentName := studentName
           rollNumber := rollNumber
           detectedAnswers := detectedAnswers
           answerKeyId := answerKeyId
           evaluation := evaluation
           status := "completed" }

/-- Sum of the values of a subject-score object. -/
def sumValues (l : List (String × Nat)) : Nat :=
  (l.map Prod.snd).sum

/-- The total score the claim attributes to `score`: the number of
questions `q` in `1..answerKey.totalQuestions` whose detected answer is
present (truthy) and equals the key's answer. Modelled from the claim's
words for comparison against `calculateScores`. -/
def claimedTotalScore (detectedAnswers : List (Nat × Option String)) (answerKey : AnswerKey) : Nat :=
  (questionList answerKey.totalQuestions).countP
    (fun q => jsTruthy (lookupDetected detectedAnswers q) &&
      (lookupDetected detectedAnswers q == lookupAnswer answerKey.answers q))

/-- Membership in the ascending question list `1..n` is exactly the bound
`1 ≤ q ≤ n`. -/
lemma mem_questionList (n q : Nat) : q ∈ questionList n ↔ 1 ≤ q ∧ q ≤ n := by
  simp only [questionList, List.mem_map, List.mem_range]
  constructor
  · rintro ⟨a, ha, rfl⟩
    omega
  · intro h
    exact ⟨q - 1, by omega, by omega⟩

/-- `bump` preserves the key list of a subject-score object. -/
lemma bump_keys (l : List (String × Nat)) (s : String) :
    (bump l s).map Prod.fst = l.map Prod.fst := by
  induction l with
  | nil => rfl
  | cons p rest ih =>
    obtain ⟨k, v⟩ := p
    by_cases h : k = s <;> simp [bump, h, ih]

/-- `bump` at a key that is present increases the value sum by exactly 1. -/
lemma bump_sum (l : List (String × Nat)) (s : String) (h : s ∈ l.map Prod.fst) :
    sumValues (bump l s) = sumValues l + 1 := by
  induction l with
  | nil => simp at h
  | cons p rest ih =>
    obtain ⟨k, v⟩ := p
    by_cases hk : k = s
    · simp only [bump, if_pos hk, sumValues, List.map_cons, List.sum_cons]
      omega
    · have hs : s ∈ rest.map Prod.fst := by
        rcases List.mem_cons.mp h with h' | h'
        · exact absurd h'.symm hk
        · exact h'
      have ihs := ih hs
      simp only [sumValues, List.map_cons, List.sum_cons] at ihs ⊢
      simp only [bump, if_neg hk, List.map_cons, List.sum_cons]
      omega

/-- For every question in the hardcoded range 1..100 the `subjectRanges`
search succeeds and yields one of the five hardcoded subject names. -/
lemma find_subjectRange (q : Nat) (h1 : 1 ≤ q) (h2 : q ≤ 100) :
    ∃ r, subjectRanges.find?
        (fun range => decide (range.start ≤ q) && decide (q ≤ range.stop)) = some r ∧
      r.subject ∈ subjectNames := by
  interval_cases q <;> exact ⟨_, rfl, by decide⟩

/-- The scoring loop body reads the detected-answer map only at the current
question, so the whole loop is unchanged when the two maps agree on the
questions visited. -/
lemma foldl_scoreStep_congr (d d' c : Nat → Option String) (qs : List Nat)
    (h : ∀ q ∈ qs, d q = d' q) (acc : Nat × List (String × Nat)) :
    qs.foldl (scoreStep d c) acc = qs.foldl (scoreStep d' c) acc := by
  induction qs generalizing acc with
  | nil => rfl
  | cons q qs ih =>
    have hq : d q = d' q := h q (List.mem_cons_self q qs)
    have hstep : scoreStep d c acc q = scoreStep d' c acc q := by
      simp only [scoreStep, hq]
    rw [List.foldl_cons, List.foldl_cons, hstep]
    exact ih (fun q' hq' => h q' (List.mem_cons_of_mem q hq')) _

/-- The total-score component of the loop counts exactly the visited
questions whose detected answer is truthy and strictly equal to the key's
answer. -/
lemma foldl_scoreStep_fst (d c : Nat → Option String) (qs : List Nat)
    (acc : Nat × List (String × Nat)) :
    (qs.foldl (scoreStep d c) acc).1 =
      acc.1 + qs.countP (fun q => jsTruthy (d q) && (d q == c q)) := by
  induction qs generalizing acc with
  | nil => simp
  | cons q qs ih
  => rw [List.foldl_cons, ih, List.countP_cons]
     by_cases h : (jsTruthy (d q) && (d q == c q)) = true
     · have h1 : (scoreStep d c acc q).1 = acc.1 + 1 := by
         simp only [scoreStep, if_pos h]
         cases subjectRanges.find?
             (fun range => decide (range.start ≤ q) && decide (q ≤ range.stop)) <;> rfl
       rw [h1, h]
       simp
       omega
     · have h0 : scoreStep d c acc q = acc := by
         simp only [scoreStep, if_neg h]
       rw [h0, if_neg h]
       omega

/-- Loop invariant of `calculateScores`: the subject-score key list stays
the five hardcoded names, and the running total equals the sum of the
subject scores, provided every visited question lies in 1..100. -/
lemma foldl_scoreStep_invariant (d c : Nat → Option String) (qs : List Nat)
    (acc : Nat × List (String × Nat))
    (hqs : ∀ q ∈ qs, 1 ≤ q ∧ q ≤ 100)
    (hkeys : acc.2.map Prod.fst = subjectNames)
    (hsum : acc.1 = sumValues acc.2) :
    (qs.foldl (scoreStep d c) acc).2.map Prod.fst = subjectNames ∧
      (qs.foldl (scoreStep d c) acc).1 = sumValues (qs.foldl (scoreStep d c) acc).2 := by
  induction qs generalizing acc with
  | nil => exact ⟨hkeys, hsum⟩
  | cons q qs ih =>
    obtain ⟨h1, h2⟩ := hqs q (List.mem_cons_self q qs)
    have hkeys' : (scoreStep d c acc q).2.map Prod.fst = subjectNames := by
      by_cases hcond : (jsTruthy (d q) && (d q == c q)) = true
      · obtain ⟨r, hf, hmem⟩ := find_subjectRange q h1 h2
        simp only [scoreStep, if_pos hcond, hf]
        rw [bump_keys]
        exact hkeys
      · simp only [scoreStep, if_neg hcond]
        exact hkeys
    have hsum' : (scoreStep d c acc q).1 = sumValues (scoreStep d c acc q).2 := by
      by_cases hcond : (jsTruthy (d q) && (d q == c q)) = true
      · obtain ⟨r, hf, hmem⟩ := find_subjectRange q h1 h2
        simp only [scoreStep, if_pos hcond, hf]
        have hin : r.subject ∈ acc.2.map Prod.fst := by
          rw [hkeys]
          exact hmem
        rw [bump_sum acc.2 r.subject hin]
        omega
      · simp only [scoreStep, if_neg hcond]
        exact hsum
    rw [List.foldl_cons]
    exact ih (scoreStep d c acc q) (fun q' hq' => hqs q' (List.mem_cons_of_mem q hq'))
      hkeys' hsum'

/-- A detected-answer map none of whose values is the empty string never
looks up to the empty string. -/
lemma lookupDetected_ne_empty (detectedAnswers : List (Nat × Option String))
    (hvals : ∀ p ∈ detectedAnswers, p.2 ≠ some "") (q : Nat) :
    lookupDetected detectedAnswers q ≠ some "" := by
  unfold lookupDetected
  cases hf : detectedAnswers.find? (fun p => p.1 == q) with
  | none => simp
  | some p =>
    have hmem := List.mem_of_find?_eq_some hf
    have hp := hvals p hmem
    simpa using hp

/-- C1 (counterexample): for a valid 101-question answer key whose every
question is answered correctly, `calculateScores` returns 100, not the 101
matching questions in `1..totalQuestions`, because its loop is hardcoded
to `1..100`. -/
theorem claim_C1_counterexample :
    (score ((questionList 101).map (fun q => (q, some "A")))
        (AnswerKey.mk 101 ((questionList 101).map (fun q => (q, "A"))) [("All", 1, 101)])).totalScore ≠
      claimedTotalScore ((questionList 101).map (fun q => (q, some "A")))
        (AnswerKey.mk 101 ((questionList 101).map (fun q => (q, "A"))) [("All", 1, 101)]) := by
  decide

/-- C1 (amended): the total score returned by `score` equals the number of
questions `q` in the hardcoded range 1..100 whose detected answer is
present/truthy and strictly equal to the key's answer; each such question
contributes exactly 1 point, all others 0. -/
theorem claim_C1 (detectedAnswers : List (Nat × Option String)) (answerKey : AnswerKey) :
    (score detectedAnswers answerKey).totalScore =
      (questionList 100).countP
        (fun q => jsTruthy (lookupDetected detectedAnswers q) &&
          (lookupDetected detectedAnswers q == lookupAnswer answerKey.answers q)) := by
  simp only [score, calculateScores, calcScores]
  rw [foldl_scoreStep_fst]
  simp

/-- C2: for every answer key and every detected-answer set, the total score
returned by `score` equals the sum of the values of the returned
subject-score mapping. -/
theorem claim_C2 (detectedAnswers : List (Nat × Option String)) (answerKey : AnswerKey) :
    (score detectedAnswers answerKey).totalScore =
      sumValues (score detectedAnswers answerKey).subjectScores := by
  have h := foldl_scoreStep_invariant (lookupDetected detectedAnswers)
    (lookupAnswer answerKey.answers) (questionList 100) (0, initialSubjectScores)
    (by decide) (by decide) (by decide)
  simp only [score, calculateScores, calcScores]
  exact h.2

/-- C4 (counterexample): for an answer key declaring the single subject
Math, the subject-score mapping returned by `score` does not contain a
Math key — the code ignores `answerKey.subjects` and uses five hardcoded
subjects. -/
theorem claim_C4_counterexample :
    "Math" ∈ (AnswerKey.mk 10 [(1, "A")] [("Math", 1, 10)]).subjects.map Prod.fst ∧
      "Math" ∉ (score [] (AnswerKey.mk 10 [(1, "A")] [("Math", 1, 10)])).subjectScores.map Prod.fst := by
  decide

/-- C4 (amended): for every answer key and detected-answer set, the
subject-score mapping returned by `score` has exactly the five hardcoded
subject keys, in insertion order, regardless of `answerKey.subjects`; each
is initialized to 0 before accumulation, so each is present even when its
score is 0. -/
theorem claim_C4 (detectedAnswers : List (Nat × Option String)) (answerKey : AnswerKey) :
    (score detectedAnswers answerKey).subjectScores.map Prod.fst = subjectNames := by
  have h := foldl_scoreStep_invariant (lookupDetected detectedAnswers)
    (lookupAnswer answerKey.answers) (questionList 100) (0, initialSubjectScores)
    (by decide) (by decide) (by decide)
  simp only [score, calculateScores, calcScores]
  exact h.1

/-- C6 (counterexample): a detected-answer set declaring question 101,
outside `1..totalQuestions` of a 100-question key, is scored without any
error: the out-of-range entry is silently ignored and the result is
identical to scoring without it — there is no MismatchError anywhere in
the code. -/
theorem claim_C6_counterexample :
    score [(101, some "A")] (AnswerKey.mk 100 [(1, "B")] []) =
        score [] (AnswerKey.mk 100 [(1, "B")] []) ∧
      (score [(101, some "A")] (AnswerKey.mk 100 [(1, "B")] [])).totalScore = 0 := by
  decide

/-- C6 (amended): `calculateScores` never fails; a detected-answer entry
for any question number outside the hardcoded range 1..100 is silently
ignored and leaves the returned scores unchanged. -/
theorem claim_C6 (detectedAnswers : List (Nat × Option String))
    (correctAnswers : List (Nat × String)) (q0 : Nat) (v : Option String)
    (h : q0 = 0 ∨ 100 < q0) :
    calculateScores ((q0, v) :: detectedAnswers) correctAnswers =
      calculateScores detectedAnswers correctAnswers := by
  simp only [calculateScores, calcScores]
  rw [foldl_scoreStep_congr (lookupDetected ((q0, v) :: detectedAnswers))
    (lookupDetected detectedAnswers) (lookupAnswer correctAnswers) (questionList 100) ?_]
  intro q hq
  obtain ⟨h1, h2⟩ := (mem_questionList 100 q).mp hq
  have hne : (q0 == q) = false := by
    rw [beq_eq_false_iff_ne]
    omega
  simp [lookupDetected, List.find?, hne]

/-- C6 (witness). -/
theorem claim_C6_witness :
    calculateScores [(101, some "A"), (2, some "C")] [(2, "C")] =
      calculateScores [(2, some "C")] [(2, "C")] :=
  claim_C6 [(2, some "C")] [(2, "C")] 101 (some "A") (by decide)

/-- C7 (counterexample): for an answer key with 50 questions, `compare`
still returns 100 entries — in particular an entry for question 100,
outside `1..totalQuestions` — because the loop is hardcoded to 1..100. -/
theorem claim_C7_counterexample :
    (AnswerKey.mk 50 [] []).totalQuestions = 50 ∧
      (compare [] (AnswerKey.mk 50 [] [])).map ComparisonEntry.questionNumber ≠
        questionList 50 ∧
      100 ∈ (compare [] (AnswerKey.mk 50 [] [])).map ComparisonEntry.questionNumber := by
  decide

/-- C7 (amended): for every answer key and detected-answer set, `compare`
returns exactly one comparison entry per question in the hardcoded range
1..100, in ascending question-number order. -/
theorem claim_C7 (detectedAnswers : List (Nat × Option String)) (answerKey : AnswerKey) :
    (compare detectedAnswers answerKey).map ComparisonEntry.questionNumber =
      questionList 100 := by
  simp only [compare, generateAnswerComparison, List.map_map]
  have hfun : (ComparisonEntry.questionNumber ∘
      comparisonEntry (lookupDetected detectedAnswers) (lookupAnswer answerKey.answers)) =
      fun q => q := by
    funext q
    rfl
  rw [hfun]
  exact List.map_id _

/-- C8: for every entry produced by `generateAnswerComparison` from a
detected-answer set whose values conform to the data model (answer
letters, never the empty string), the status field is `undetected` iff the
detected answer is null; otherwise it is `correct` iff the detected answer
equals the correct answer and `incorrect` otherwise — an exhaustive,
mutually exclusive classification, with `isCorrect` true exactly on the
correct case. -/
theorem claim_C8 (detectedAnswers : List (Nat × Option String))
    (correctAnswers : List (Nat × String)) (subjects : List (String × Nat × Nat))
    (e : ComparisonEntry)
    (hvals : ∀ p ∈ detectedAnswers, p.2 ≠ some "")
    (he : e ∈ generateAnswerComparison detectedAnswers correctAnswers subjects) :
    (e.status = "undetected" ↔ e.detectedAnswer = none) ∧
      (e.detectedAnswer ≠ none →
        ((e.status = "correct" ↔ e.detectedAnswer = e.correctAnswer) ∧
          (e.status = "incorrect" ↔ e.detectedAnswer ≠ e.correctAnswer))) ∧
      (e.isCorrect = true ↔ e.status = "correct") ∧
      (e.status = "correct" ∨ e.status = "incorrect" ∨ e.status = "undetected") := by
  simp only [generateAnswerComparison] at he
  obtain ⟨q, hq, rfl⟩ := List.mem_map.mp he
  have hne := lookupDetected_ne_empty detectedAnswers hvals q
  cases hd : lookupDetected detectedAnswers q with
  | none =>
    simp [comparisonEntry, hd, jsTruthy]
  | some s =>
    have hs : (s == "") = false := beq_eq_false_iff_ne.mpr (fun h => hne (by rwa [h] at hd))
    by_cases heq : some s = lookupAnswer correctAnswers q
    · simp [comparisonEntry, hd, jsTruthy, hs, ← heq]
    · simp [comparisonEntry, hd, jsTruthy, hs, heq, beq_iff_eq]

/-- Concrete eligible detected-answer set for the C8 witness. -/
def detectedW : List (Nat × Option String) := [(1, some "A")]

/-- Concrete answer mapping for the C8 witness. -/
def correctW : List (Nat × String) := [(1, "A")]

/-- First entry produced by the comparison generator on the witness input. -/
def entryW : ComparisonEntry :=
  comparisonEntry (lookupDetected detectedW) (lookupAnswer correctW) 1

/-- C8 (witness). -/
theorem claim_C8_witness :
    (entryW.status = "undetected" ↔ entryW.detectedAnswer = none) ∧
      (entryW.detectedAnswer ≠ none →
        ((entryW.status = "correct" ↔ entryW.detectedAnswer = entryW.correctAnswer) ∧
          (entryW.status = "incorrect" ↔ entryW.detectedAnswer ≠ entryW.correctAnswer))) ∧
      (entryW.isCorrect = true ↔ entryW.status = "correct") ∧
      (entryW.status = "correct" ∨ entryW.status = "incorrect" ∨
        entryW.status = "undetected") :=
  claim_C8 detectedW correctW [] entryW (by decide)
    (List.mem_map.mpr ⟨1, by decide, rfl⟩)

/-- C9: `calculateScores` depends on the detected-answer set only through
the questions 1..100: two detected-answer sets that agree on every
question number in 1..100 receive identical total and subject scores, and
entries keyed outside 1..100 never influence the result. -/
theorem claim_C9 (d1 d2 : List (Nat × Option String)) (correctAnswers : List (Nat × String))
    (h : ∀ q ∈ questionList 100, lookupDetected d1 q = lookupDetected d2 q) :
    calculateScores d1 correctAnswers = calculateScores d2 correctAnswers := by
  simp only [calculateScores, calcScores]
  rw [foldl_scoreStep_congr (lookupDetected d1) (lookupDetected d2)
    (lookupAnswer correctAnswers) (questionList 100) h]

/-- C9 (witness). -/
theorem claim_C9_witness :
    calculateScores [(200, some "D"), (3, some "B")] [(3, "B")] =
      calculateScores [(3, some "B")] [(3, "B")] :=
  claim_C9 [(200, some "D"), (3, some "B")] [(3, some "B")] [(3, "B")] (by decide)

/-- C10: the output of `generateAnswerComparison` is independent of its
`subjects` argument — the parameter is never read; each entry's subject
comes from the hardcoded question-number thresholds. -/
theorem claim_C10 (detectedAnswers : List (Nat × Option String))
    (correctAnswers : List (Nat × String)) (s1 s2 : List (String × Nat × Nat)) :
    generateAnswerComparison detectedAnswers correctAnswers s1 =
      generateAnswerComparison detectedAnswers correctAnswers s2 := rfl

/-- A 99-entry answers mapping for a 100-question exam, missing the entry
for question 50. -/
def answersMissing50 : List (Nat × String) :=
  ((questionList 100).filter (fun q => q != 50)).map (fun q => (q, "A"))

/-- C5 (counterexample): an answer key whose answers mapping has only 99
entries for `totalQuestions = 100` (question 50 missing) is accepted and
stored by the answer-keys POST handler — there is no completeness
validation and no InvalidAnswerError in the code. -/
theorem claim_C5_counterexample :
    answersMissing50.length = 99 ∧
      (uploadAnswerKey (some "Midterm") (some "A") (some 100)
        (some answersMissing50) none).isSome = true := by
  decide

/-- C5 (amended): the answer-keys POST handler validates only the presence
of `examName`, `setVersion` and `answers`; any submitted key passing that
check — including one whose answers mapping has fewer entries than
`totalQuestions` — is stored exactly as received, with no
InvalidAnswerError. -/
theorem claim_C5 (examName setVersion : String) (totalQuestions : Nat)
    (answers : List (Nat × String)) (subjects : Option (List (String × Nat × Nat)))
    (hname : examName ≠ "") (hver : setVersion ≠ "") :
    uploadAnswerKey (some examName) (some setVersion) (some totalQuestions)
        (some answers) subjects =
      some { examName := examName, setVersion := setVersion,
             totalQuestions := some totalQuestions, answers := answers,
             subjects := subjects } := by
  have h1 : (examName == "") = false := beq_eq_false_iff_ne.mpr hname
  have h2 : (setVersion == "") = false := beq_eq_false_iff_ne.mpr hver
  simp [uploadAnswerKey, jsTruthy, h1, h2]

/-- C5 (witness). -/
theorem claim_C5_witness :
    uploadAnswerKey (some "Final") (some "B") (some 100) (some answersMissing50) none =
      some { examName := "Final", setVersion := "B", totalQuestions := some 100,
             answers := answersMissing50, subjects := none } :=
  claim_C5 "Final" "B" 100 answersMissing50 none (by decide) (by decide)

/-- C3 (counterexample): processing a sheet submitted without an
`answerKeyId` writes a record with `status = completed` and a null result
— exactly the state the claim says must never be observed. -/
theorem claim_C3_counterexample :
    (processOMR (some "Alice") (some "R001") (some "img") none (fun _ => none) []).map
        (fun r => (r.status, r.evaluation)) = some ("completed", none) := by
  decide

/-- C3 (amended): every record the process-omr route writes has status
completed, unconditionally; its result is populated iff a truthy
answer-key id was supplied and resolved in the store. In particular
records with status completed and a null result do occur, and no record is
ever written with status error. -/
theorem claim_C3 (studentName rollNumber imageData answerKeyId : Option String)
    (kvGet : String → Option AnswerKey) (detectedAnswers : List (Nat × Option String))
    (r : StoredEvaluation)
    (h : processOMR studentName rollNumber imageData answerKeyId kvGet detectedAnswers =
      some r) :
    r.status = "completed" ∧
      r.evaluation.isSome = (jsTruthy answerKeyId && (answerKeyId.bind kvGet).isSome) := by
  simp only [processOMR] at h
  by_cases hf : (!jsTruthy studentName || !jsTruthy rollNumber || !jsTruthy imageData) = true
  · rw [if_pos hf] at h
    simp at h
  · rw [if_neg hf] at h
    injection h with h
    subst h
    refine ⟨rfl, ?_⟩
    cases hak : jsTruthy answerKeyId with
    | false => simp [hak]
    | true =>
      cases hkv : answerKeyId.bind kvGet with
      | none => simp [hak, hkv]
      | some key => simp [hak, hkv]

/-- Concrete answer-key store for the C3 witness. -/
def kvW : String → Option AnswerKey := fun _ => some (AnswerKey.mk 100 [(1, "A")] [])

/-- The record written by the process-omr route on the C3 witness input. -/
def recW : StoredEvaluation :=
  { studentName := some "Bob", rollNumber := some "R2", detectedAnswers := [],
    answerKeyId := some "k1", evaluation := some (calculateScores [] [(1, "A")]),
    status := "completed" }

/-- C3 (witness). -/
theorem claim_C3_witness :
    recW.status = "completed" ∧
      recW.evaluation.isSome = (jsTruthy (some "k1") && ((some "k1").bind kvW).isSome) :=
  claim_C3 (some "Bob") (some "R2") (some "img") (some "k1") kvW [] recW (by decide)

end AutoOMR
